import Mathlib

/-!
Shallow embedding of the GPU resource-management and swapchain layer of the
VulkanRmlUI repository (src/TryLauncher/Vulkan).  External API calls
(VMA allocation, image-view creation, image acquisition, queue submission)
are modelled as oracle parameters; everything the repository's own code
computes is translated directly from the source files.
-/

/-! ## Vulkan enums and flag constants (values from vulkan_core.h) -/

inductive VkImageLayout where
  | undefined
  | general
  | colorAttachmentOptimal
  | depthStencilAttachmentOptimal
  | shaderReadOnlyOptimal
  | transferSrcOptimal
  | transferDstOptimal
  | presentSrcKHR
  deriving DecidableEq, Repr

inductive VkFormat where
  | undefinedFmt
  | b8g8r8a8Srgb
  | r8g8b8a8Srgb
  | r8g8b8a8Unorm
  | d32Sfloat
  | d32SfloatS8Uint
  | d24UnormS8Uint
  deriving DecidableEq, Repr

inductive VmaMemoryUsage where
  | unknown
  | gpuOnly
  | cpuOnly
  | cpuToGpu
  | gpuToCpu
  deriving DecidableEq, Repr

def VK_ACCESS_TRANSFER_READ_BIT : Nat := 0x00000800

def VK_ACCESS_TRANSFER_WRITE_BIT : Nat := 0x00001000

def VK_ACCESS_SHADER_READ_BIT : Nat := 0x00000020

def VK_ACCESS_DEPTH_STENCIL_ATTACHMENT_READ_BIT : Nat := 0x00000200

def VK_ACCESS_DEPTH_STENCIL_ATTACHMENT_WRITE_BIT : Nat := 0x00000400

def VK_PIPELINE_STAGE_TOP_OF_PIPE_BIT : Nat := 0x00000001

def VK_PIPELINE_STAGE_TRANSFER_BIT : Nat := 0x00001000

def VK_PIPELINE_STAGE_FRAGMENT_SHADER_BIT : Nat := 0x00000080

def VK_PIPELINE_STAGE_EARLY_FRAGMENT_TESTS_BIT : Nat := 0x00000100

def VK_IMAGE_ASPECT_COLOR_BIT : Nat := 0x00000001

def VK_IMAGE_ASPECT_DEPTH_BIT : Nat := 0x00000002

def VK_IMAGE_ASPECT_STENCIL_BIT : Nat := 0x00000004

def VK_BUFFER_USAGE_TRANSFER_SRC_BIT : Nat := 0x00000001

def VK_BUFFER_USAGE_TRANSFER_DST_BIT : Nat := 0x00000002

def VK_BUFFER_USAGE_UNIFORM_BUFFER_BIT : Nat := 0x00000010

def VK_BUFFER_USAGE_INDEX_BUFFER_BIT : Nat := 0x00000040

def VK_BUFFER_USAGE_VERTEX_BUFFER_BIT : Nat := 0x00000080

def VK_IMAGE_USAGE_TRANSFER_SRC_BIT : Nat := 0x00000001

def VK_IMAGE_USAGE_TRANSFER_DST_BIT : Nat := 0x00000002

def VK_IMAGE_USAGE_SAMPLED_BIT : Nat := 0x00000004

def VMA_ALLOCATION_CREATE_MAPPED_BIT : Nat := 0x00000004

def UINT32_MAX : Nat := 2 ^ 32 - 1

/-! ## Data model: AllocatedBuffer / AllocatedImage (ResourceManager.h)

Vulkan handles are modelled as Nat with 0 standing for VK_NULL_HANDLE. -/

structure VkExtent3D where
  width : Nat := 0
  height : Nat := 0
  depth : Nat := 0
  deriving DecidableEq, Repr

structure AllocatedBuffer where
  buffer : Nat := 0
  allocation : Nat := 0
  mappedData : Option Nat := none
  size : Nat := 0
  deriving DecidableEq, Repr

def AllocatedBuffer.IsValid (b : AllocatedBuffer) : Bool :=
  b.buffer != 0 && b.allocation != 0

structure AllocatedImage where
  image : Nat := 0
  imageView : Nat := 0
  allocation : Nat := 0
  mappedData : Option Nat := none
  size : Nat := 0
  format : VkFormat := VkFormat.undefinedFmt
  extent : VkExtent3D := {}
  mipLevels : Nat := 1
  deriving DecidableEq, Repr

def AllocatedImage.IsValid (i : AllocatedImage) : Bool :=
  i.image != 0 && i.allocation != 0

/-- ResourceManager observable state: the initialized flag and the
live-allocation counter (a uint32_t in the source, hence the mod 2^32
on increment). -/
structure RMState where
  initialized : Bool := false
  allocationCount : Nat := 0
  deriving DecidableEq, Repr

def ResourceManager.HasStencilComponent (format : VkFormat) : Bool :=
  format == VkFormat.d32SfloatS8Uint || format == VkFormat.d24UnormS8Uint

/-! ## ResourceManager buffer operations (ResourceManager.cpp)

The vmaCreateBuffer call is an oracle: none models VK_SUCCESS not returned,
some b models success with the handles VMA filled in. -/

def ResourceManager.CreateBuffer (s : RMState) (size usage : Nat)
    (memoryUsage : VmaMemoryUsage) (flags : Nat)
    (vma : Option AllocatedBuffer) : RMState × AllocatedBuffer :=
  if s.initialized = false then
    (s, {})
  else
    match vma with
    | none => (s, {})
    | some buffer => ({ s with allocationCount := (s.allocationCount + 1) % 2 ^ 32 }, buffer)

def ResourceManager.CreateVertexBuffer (s : RMState) (size : Nat) (hostVisible : Bool)
    (vma : Option AllocatedBuffer) : RMState × AllocatedBuffer :=
  let usage := VK_BUFFER_USAGE_VERTEX_BUFFER_BIT
  if hostVisible then
    ResourceManager.CreateBuffer s size (usage ||| VK_BUFFER_USAGE_TRANSFER_DST_BIT)
      VmaMemoryUsage.cpuToGpu VMA_ALLOCATION_CREATE_MAPPED_BIT vma
  else
    ResourceManager.CreateBuffer s size (usage ||| VK_BUFFER_USAGE_TRANSFER_DST_BIT)
      VmaMemoryUsage.gpuOnly 0 vma

def ResourceManager.CreateIndexBuffer (s : RMState) (size : Nat) (hostVisible : Bool)
    (vma : Option AllocatedBuffer) : RMState × AllocatedBuffer :=
  let usage := VK_BUFFER_USAGE_INDEX_BUFFER_BIT
  if hostVisible then
    ResourceManager.CreateBuffer s size (usage ||| VK_BUFFER_USAGE_TRANSFER_DST_BIT)
      VmaMemoryUsage.cpuToGpu VMA_ALLOCATION_CREATE_MAPPED_BIT vma
  else
    ResourceManager.CreateBuffer s size (usage ||| VK_BUFFER_USAGE_TRANSFER_DST_BIT)
      VmaMemoryUsage.gpuOnly 0 vma

def ResourceManager.CreateUniformBuffer (s : RMState) (size : Nat)
    (vma : Option AllocatedBuffer) : RMState × AllocatedBuffer :=
  ResourceManager.CreateBuffer s size VK_BUFFER_USAGE_UNIFORM_BUFFER_BIT
    VmaMemoryUsage.cpuToGpu VMA_ALLOCATION_CREATE_MAPPED_BIT vma

def ResourceManager.CreateStagingBuffer (s : RMState) (size : Nat)
    (vma : Option AllocatedBuffer) : RMState × AllocatedBuffer :=
  ResourceManager.CreateBuffer s size VK_BUFFER_USAGE_TRANSFER_SRC_BIT
    VmaMemoryUsage.cpuOnly VMA_ALLOCATION_CREATE_MAPPED_BIT vma

def ResourceManager.DestroyBuffer (s : RMState) (buffer : AllocatedBuffer) : RMState :=
  if s.initialized = false ∨ buffer.IsValid = false then
    s
  else
    if 0 < s.allocationCount then
      { s with allocationCount := s.allocationCount - 1 }
    else
      s

/-! ## ResourceManager image operations (ResourceManager.cpp)

VkImageCreateInfo is embedded with the fields the source sets; the
vmaCreateImage oracle yields (image handle, allocation handle, size), and
the vkCreateImageView oracle maps the computed aspect mask to a view handle
(none models creation failure, matching the VK_NULL_HANDLE return). -/

structure VkImageCreateInfo where
  extent : VkExtent3D := {}
  mipLevels : Nat := 1
  arrayLayers : Nat := 1
  format : VkFormat := VkFormat.undefinedFmt
  usage : Nat := 0
  samples : Nat := 1
  deriving DecidableEq, Repr

def ResourceManager.CreateImage (s : RMState) (imageInfo : VkImageCreateInfo)
    (memoryUsage : VmaMemoryUsage) (flags : Nat)
    (vma : Option (Nat × Nat × Nat)) (viewOracle : Nat → Option Nat) :
    RMState × AllocatedImage :=
  if s.initialized = false then
    (s, {})
  else
    match vma with
    | none => (s, {})
    | some (imageHandle, allocationHandle, allocSize) =>
      let aspectFlags :=
        if imageInfo.format = VkFormat.d32Sfloat ∨
           imageInfo.format = VkFormat.d32SfloatS8Uint ∨
           imageInfo.format = VkFormat.d24UnormS8Uint then
          if ResourceManager.HasStencilComponent imageInfo.format then
            VK_IMAGE_ASPECT_DEPTH_BIT ||| VK_IMAGE_ASPECT_STENCIL_BIT
          else
            VK_IMAGE_ASPECT_DEPTH_BIT
        else
          VK_IMAGE_ASPECT_COLOR_BIT
      match viewOracle aspectFlags with
      | none => (s, {})
      | some viewHandle =>
        ({ s with allocationCount := (s.allocationCount + 1) % 2 ^ 32 },
         { image := imageHandle
           imageView := viewHandle
           allocation := allocationHandle
           mappedData := none
           size := allocSize
           format := imageInfo.format
           extent := imageInfo.extent
           mipLevels := imageInfo.mipLevels })

def ResourceManager.CreateImage2D (s : RMState) (width height : Nat) (format : VkFormat)
    (usage : Nat) (mipLevels : Nat) (samples : Nat)
    (vma : Option (Nat × Nat × Nat)) (viewOracle : Nat → Option Nat) :
    RMState × AllocatedImage :=
  let imageInfo : VkImageCreateInfo :=
    { extent := { width := width, height := height, depth := 1 }
      mipLevels := mipLevels
      arrayLayers := 1
      format := format
      usage := usage
      samples := samples }
  ResourceManager.CreateImage s imageInfo VmaMemoryUsage.gpuOnly 0 vma viewOracle

def ResourceManager.CreateTexture2D (s : RMState) (width height : Nat) (format : VkFormat)
    (mipLevels : Nat) (vma : Option (Nat × Nat × Nat)) (viewOracle : Nat → Option Nat) :
    RMState × AllocatedImage :=
  let usage := VK_IMAGE_USAGE_TRANSFER_DST_BIT ||| VK_IMAGE_USAGE_SAMPLED_BIT
  let usage := if 1 < mipLevels then usage ||| VK_IMAGE_USAGE_TRANSFER_SRC_BIT else usage
  ResourceManager.CreateImage2D s width height format usage mipLevels 1 vma viewOracle

def ResourceManager.DestroyImage (s : RMState) (image : AllocatedImage) : RMState :=
  if s.initialized = false ∨ image.IsValid = false then
    s
  else
    if 0 < s.allocationCount then
      { s with allocationCount := s.allocationCount - 1 }
    else
      s

/-! ## ResourceManager mapping and transfer operations -/

def ResourceManager.MapBuffer (s : RMState) (buffer : AllocatedBuffer)
    (vmaMap : Option Nat) : Option Nat :=
  if s.initialized = false ∨ buffer.IsValid = false then
    none
  else
    match buffer.mappedData with
    | some p => some p
    | none => vmaMap

structure BufferCopyRecord where
  srcBuffer : Nat
  dstBuffer : Nat
  srcOffset : Nat
  dstOffset : Nat
  size : Nat
  deriving DecidableEq, Repr

def ResourceManager.CopyBuffer (s : RMState) (srcBuffer dstBuffer : AllocatedBuffer)
    (size srcOffset dstOffset : Nat) : Option BufferCopyRecord :=
  if s.initialized = false ∨ srcBuffer.IsValid = false ∨ dstBuffer.IsValid = false then
    none
  else
    some { srcBuffer := srcBuffer.buffer
           dstBuffer := dstBuffer.buffer
           srcOffset := srcOffset
           dstOffset := dstOffset
           size := size }

structure BufferImageCopyRecord where
  buffer : Nat
  image : Nat
  width : Nat
  height : Nat
  layerCount : Nat
  deriving DecidableEq, Repr

def ResourceManager.CopyBufferToImage (s : RMState) (buffer : AllocatedBuffer)
    (image : AllocatedImage) (width height layerCount : Nat) :
    Option BufferImageCopyRecord :=
  if s.initialized = false ∨ buffer.IsValid = false ∨ image.IsValid = false then
    none
  else
    some { buffer := buffer.buffer
           image := image.image
           width := width
           height := height
           layerCount := layerCount }

/-! ## TransitionImageLayout (ResourceManager.cpp lines 374-436) -/

structure BarrierRecord where
  srcAccessMask : Nat
  dstAccessMask : Nat
  srcStage : Nat
  dstStage : Nat
  aspectMask : Nat
  oldLayout : VkImageLayout
  newLayout : VkImageLayout
  baseMipLevel : Nat
  levelCount : Nat
  baseArrayLayer : Nat
  layerCount : Nat
  deriving DecidableEq, Repr

/-- The (srcAccess, dstAccess, srcStage, dstStage) part of a recorded barrier. -/
def BarrierRecord.core (b : BarrierRecord) : Nat × Nat × Nat × Nat :=
  (b.srcAccessMask, b.dstAccessMask, b.srcStage, b.dstStage)

structure TransitionResult where
  errorReported : Bool
  barrier : Option BarrierRecord
  commandEnded : Bool
  deriving DecidableEq, Repr

def ResourceManager.TransitionImageLayout (s : RMState) (format : VkFormat)
    (oldLayout newLayout : VkImageLayout) (mipLevels layerCount : Nat) :
    TransitionResult :=
  if s.initialized = false then
    { errorReported := false, barrier := none, commandEnded := false }
  else
    let aspectMask :=
      if newLayout = VkImageLayout.depthStencilAttachmentOptimal then
        if ResourceManager.HasStencilComponent format then
          VK_IMAGE_ASPECT_DEPTH_BIT ||| VK_IMAGE_ASPECT_STENCIL_BIT
        else
          VK_IMAGE_ASPECT_DEPTH_BIT
      else
        VK_IMAGE_ASPECT_COLOR_BIT
    let record (srcA dstA srcS dstS : Nat) : BarrierRecord :=
      { srcAccessMask := srcA
        dstAccessMask := dstA
        srcStage := srcS
        dstStage := dstS
        aspectMask := aspectMask
        oldLayout := oldLayout
        newLayout := newLayout
        baseMipLevel := 0
        levelCount := mipLevels
        baseArrayLayer := 0
        layerCount := layerCount }
    if oldLayout = VkImageLayout.undefined ∧ newLayout = VkImageLayout.transferDstOptimal then
      { errorReported := false
        barrier := some (record 0 VK_ACCESS_TRANSFER_WRITE_BIT
          VK_PIPELINE_STAGE_TOP_OF_PIPE_BIT VK_PIPELINE_STAGE_TRANSFER_BIT)
        commandEnded := true }
    else if oldLayout = VkImageLayout.transferDstOptimal ∧
            newLayout = VkImageLayout.shaderReadOnlyOptimal then
      { errorReported := false
        barrier := some (record VK_ACCESS_TRANSFER_WRITE_BIT VK_ACCESS_SHADER_READ_BIT
          VK_PIPELINE_STAGE_TRANSFER_BIT VK_PIPELINE_STAGE_FRAGMENT_SHADER_BIT)
        commandEnded := true }
    else if oldLayout = VkImageLayout.undefined ∧
            newLayout = VkImageLayout.depthStencilAttachmentOptimal then
      { errorReported := false
        barrier := some (record 0
          (VK_ACCESS_DEPTH_STENCIL_ATTACHMENT_READ_BIT |||
            VK_ACCESS_DEPTH_STENCIL_ATTACHMENT_WRITE_BIT)
          VK_PIPELINE_STAGE_TOP_OF_PIPE_BIT VK_PIPELINE_STAGE_EARLY_FRAGMENT_TESTS_BIT)
        commandEnded := true }
    else
      { errorReported := true, barrier := none, commandEnded := false }

/-- The three (oldLayout, newLayout) pairs the source recognizes. -/
def recognizedTransition (oldLayout newLayout : VkImageLayout) : Bool :=
  (oldLayout == VkImageLayout.undefined && newLayout == VkImageLayout.transferDstOptimal) ||
  (oldLayout == VkImageLayout.transferDstOptimal &&
    newLayout == VkImageLayout.shaderReadOnlyOptimal) ||
  (oldLayout == VkImageLayout.undefined &&
    newLayout == VkImageLayout.depthStencilAttachmentOptimal)

/-! ## GenerateMipmaps (ResourceManager.cpp lines 438-532) -/

inductive MipCommand where
  | barrierCmd (b : BarrierRecord)
  | blitCmd (srcLevel dstLevel srcW srcH dstW dstH : Nat)
  deriving DecidableEq, Repr

def mipBarrier (level : Nat) (oldL newL : VkImageLayout) (srcA dstA srcS dstS : Nat) :
    BarrierRecord :=
  { srcAccessMask := srcA
    dstAccessMask := dstA
    srcStage := srcS
    dstStage := dstS
    aspectMask := VK_IMAGE_ASPECT_COLOR_BIT
    oldLayout := oldL
    newLayout := newL
    baseMipLevel := level
    levelCount := 1
    baseArrayLayer := 0
    layerCount := 1 }

def mipChainCommands : Nat → Nat → Nat → Nat → List MipCommand
  | 0, _, _, _ => []
  | remaining + 1, i, mipWidth, mipHeight =>
    let dstW := if 1 < mipWidth then mipWidth / 2 else 1
    let dstH := if 1 < mipHeight then mipHeight / 2 else 1
    MipCommand.barrierCmd (mipBarrier (i - 1) VkImageLayout.transferDstOptimal
        VkImageLayout.transferSrcOptimal VK_ACCESS_TRANSFER_WRITE_BIT
        VK_ACCESS_TRANSFER_READ_BIT VK_PIPELINE_STAGE_TRANSFER_BIT
        VK_PIPELINE_STAGE_TRANSFER_BIT) ::
    MipCommand.blitCmd (i - 1) i mipWidth mipHeight dstW dstH ::
    MipCommand.barrierCmd (mipBarrier (i - 1) VkImageLayout.transferSrcOptimal
        VkImageLayout.shaderReadOnlyOptimal VK_ACCESS_TRANSFER_READ_BIT
        VK_ACCESS_SHADER_READ_BIT VK_PIPELINE_STAGE_TRANSFER_BIT
        VK_PIPELINE_STAGE_FRAGMENT_SHADER_BIT) ::
    mipChainCommands remaining (i + 1)
      (if 1 < mipWidth then mipWidth / 2 else mipWidth)
      (if 1 < mipHeight then mipHeight / 2 else mipHeight)

structure MipResult where
  errorReported : Bool
  commands : Option (List MipCommand)
  deriving DecidableEq, Repr

def ResourceManager.GenerateMipmaps (s : RMState) (format : VkFormat)
    (width height mipLevels : Nat) (formatSupportsLinearFilter : Bool) : MipResult :=
  if s.initialized = false then
    { errorReported := false, commands := none }
  else if formatSupportsLinearFilter = false then
    { errorReported := true, commands := none }
  else
    { errorReported := false
      commands := some (mipChainCommands (mipLevels - 1) 1 width height ++
        [MipCommand.barrierCmd (mipBarrier (mipLevels - 1)
          VkImageLayout.transferDstOptimal VkImageLayout.shaderReadOnlyOptimal
          VK_ACCESS_TRANSFER_WRITE_BIT VK_ACCESS_SHADER_READ_BIT
          VK_PIPELINE_STAGE_TRANSFER_BIT VK_PIPELINE_STAGE_FRAGMENT_SHADER_BIT)]) }

/-! ## Memory statistics (ResourceManager.cpp lines 580-592) -/

def ResourceManager.GetTotalAllocatedBytes (s : RMState) (vmaStatsBytes : Nat) : Nat :=
  if s.initialized = false then 0 else vmaStatsBytes

/-! ## Swapchain model (VulkanSwapchain.h / VulkanSwapchain.cpp)

Semaphores, fences and the chain handle are opaque Nat handles (0 would be
VK_NULL_HANDLE; the chain handle uses Option with none for VK_NULL_HANDLE).
The vkAcquireNextImageKHR and vkQueuePresentKHR results are oracles. -/

inductive VkPresentModeKHR where
  | immediateKHR
  | mailboxKHR
  | fifoKHR
  | fifoRelaxedKHR
  deriving DecidableEq, Repr

inductive VkColorSpaceKHR where
  | srgbNonlinearKHR
  | otherColorSpace
  deriving DecidableEq, Repr

structure VkSurfaceFormatKHR where
  format : VkFormat
  colorSpace : VkColorSpaceKHR
  deriving DecidableEq, Repr

structure VkExtent2D where
  width : Nat := 0
  height : Nat := 0
  deriving DecidableEq, Repr

structure VkSurfaceCapabilitiesKHR where
  minImageCount : Nat
  maxImageCount : Nat
  currentExtent : VkExtent2D
  minImageExtent : VkExtent2D
  maxImageExtent : VkExtent2D
  deriving DecidableEq, Repr

structure SwapChainSupportDetails where
  capabilities : VkSurfaceCapabilitiesKHR
  formats : List VkSurfaceFormatKHR
  presentModes : List VkPresentModeKHR
  deriving DecidableEq, Repr

/-- VulkanSwapchain::InitInfo (device and window pointers become Bools that
say whether they are non-null). -/
structure SwapInitInfo where
  hasDevice : Bool := false
  hasWindow : Bool := false
  preferredWidth : Nat := 0
  preferredHeight : Nat := 0
  enableVSync : Bool := true
  deriving DecidableEq, Repr

def MAX_FRAMES_IN_FLIGHT : Nat := 2

structure SwapchainState where
  initInfo : SwapInitInfo := {}
  swapchain : Option Nat := none
  swapchainImages : List Nat := []
  swapchainImageViews : List Nat := []
  swapchainImageFormat : VkFormat := VkFormat.undefinedFmt
  swapchainExtent : VkExtent2D := {}
  imageAvailableSemaphores : List Nat := []
  renderFinishedSemaphores : List Nat := []
  inFlightFences : List Nat := []
  currentFrame : Nat := 0
  outOfDate : Bool := false
  hasDevice : Bool := false
  hasWindow : Bool := false
  deriving DecidableEq, Repr

/-! ### Choice helpers (VulkanSwapchain.cpp lines 288-350) -/

/-- The first element of the list equal to the target, mirroring the source's
linear search loops in ChooseSwapPresentMode. -/
def findPresentMode (modes : List VkPresentModeKHR) (target : VkPresentModeKHR) :
    Option VkPresentModeKHR :=
  match modes with
  | [] => none
  | m :: rest => if m = target then some m else findPresentMode rest target

def VulkanSwapchain.ChooseSwapPresentMode (enableVSync : Bool)
    (availablePresentModes : List VkPresentModeKHR) : VkPresentModeKHR :=
  if enableVSync = false then
    match findPresentMode availablePresentModes VkPresentModeKHR.mailboxKHR with
    | some m => m
    | none =>
      match findPresentMode availablePresentModes VkPresentModeKHR.immediateKHR with
      | some m => m
      | none => VkPresentModeKHR.fifoKHR
  else
    VkPresentModeKHR.fifoKHR

/-- The first element matching (B8G8R8A8_SRGB, SRGB_NONLINEAR). -/
def findSurfaceFormat (formats : List VkSurfaceFormatKHR) : Option VkSurfaceFormatKHR :=
  match formats with
  | [] => none
  | f :: rest =>
    if f.format = VkFormat.b8g8r8a8Srgb ∧ f.colorSpace = VkColorSpaceKHR.srgbNonlinearKHR then
      some f
    else
      findSurfaceFormat rest

/-- The source falls back to availableFormats[0]; indexing an empty vector is
undefined behavior there, so the empty case surfaces as none here. -/
def VulkanSwapchain.ChooseSwapSurfaceFormat (availableFormats : List VkSurfaceFormatKHR) :
    Option VkSurfaceFormatKHR :=
  match findSurfaceFormat availableFormats with
  | some f => some f
  | none => availableFormats.head?

/-- std::clamp(v, lo, hi): lo if v < lo, hi if hi < v, else v. -/
def stdClamp (v lo hi : Nat) : Nat :=
  if v < lo then lo else if hi < v then hi else v

def VulkanSwapchain.ChooseSwapExtent (initInfo : SwapInitInfo)
    (capabilities : VkSurfaceCapabilitiesKHR) (framebufferWidth framebufferHeight : Nat) :
    VkExtent2D :=
  if capabilities.currentExtent.width ≠ UINT32_MAX then
    capabilities.currentExtent
  else
    let actualWidth := framebufferWidth
    let actualHeight := framebufferHeight
    let actualWidth :=
      if 0 < initInfo.preferredWidth ∧ 0 < initInfo.preferredHeight then
        initInfo.preferredWidth
      else actualWidth
    let actualHeight :=
      if 0 < initInfo.preferredWidth ∧ 0 < initInfo.preferredHeight then
        initInfo.preferredHeight
      else actualHeight
    { width := stdClamp actualWidth capabilities.minImageExtent.width
        capabilities.maxImageExtent.width
      height := stdClamp actualHeight capabilities.minImageExtent.height
        capabilities.maxImageExtent.height }

/-! ### AcquireNextImage (VulkanSwapchain.cpp lines 67-96)

The fence wait and reset are recorded as events rather than as fence state:
fenceWaited notes that vkWaitForFences ran, fenceReset that vkResetFences
ran on the current frame slot. -/

inductive VkAcquireResult where
  | success
  | suboptimalKHR
  | errorOutOfDateKHR
  | errorOther
  deriving DecidableEq, Repr

structure AcquireOutcome where
  state : SwapchainState
  returned : Bool
  imageIndexOut : Option Nat
  fenceWaited : Bool
  fenceReset : Bool
  errorReported : Bool
  deriving DecidableEq, Repr

def VulkanSwapchain.AcquireNextImage (s : SwapchainState)
    (acquireResult : VkAcquireResult) (acquiredIndex : Nat) : AcquireOutcome :=
  if s.hasDevice = false ∨ s.swapchain = none then
    { state := s, returned := false, imageIndexOut := none
      fenceWaited := false, fenceReset := false, errorReported := false }
  else
    match acquireResult with
    | VkAcquireResult.errorOutOfDateKHR =>
      { state := { s with outOfDate := true }, returned := false, imageIndexOut := none
        fenceWaited := true, fenceReset := false, errorReported := false }
    | VkAcquireResult.errorOther =>
      { state := s, returned := false, imageIndexOut := none
        fenceWaited := true, fenceReset := false, errorReported := true }
    | VkAcquireResult.success =>
      { state := s, returned := true, imageIndexOut := some acquiredIndex
        fenceWaited := true, fenceReset := true, errorReported := false }
    | VkAcquireResult.suboptimalKHR =>
      { state := s, returned := true, imageIndexOut := some acquiredIndex
        fenceWaited := true, fenceReset := true, errorReported := false }

/-! ### Swapchain creation and recreation (VulkanSwapchain.cpp lines 129-260, 352-371) -/

/-- CreateSwapchain: the vkCreateSwapchainKHR handle and the image list
returned by vkGetSwapchainImagesKHR are oracles.  ChooseSwapSurfaceFormat
returning none (empty format list, source UB) makes creation fail here. -/
def VulkanSwapchain.CreateSwapchain (s : SwapchainState)
    (support : SwapChainSupportDetails) (framebufferWidth framebufferHeight : Nat)
    (newHandle : Option Nat) (driverImages : List Nat) : SwapchainState × Bool :=
  match VulkanSwapchain.ChooseSwapSurfaceFormat support.formats with
  | none => (s, false)
  | some surfaceFormat =>
    let extent := VulkanSwapchain.ChooseSwapExtent s.initInfo support.capabilities
      framebufferWidth framebufferHeight
    let imageCount := support.capabilities.minImageCount + 1
    let imageCount :=
      if 0 < support.capabilities.maxImageCount ∧
         support.capabilities.maxImageCount < imageCount then
        support.capabilities.maxImageCount
      else imageCount
    match newHandle with
    | none => (s, false)
    | some handle =>
      ({ s with
          swapchain := some handle
          swapchainImages := driverImages
          swapchainImageFormat := surfaceFormat.format
          swapchainExtent := extent }, true)

/-- CreateImageViews: one view per swapchain image; the first failing
vkCreateImageView aborts with false (the source leaves the partially filled
vector behind, modelled by keeping the views created so far). -/
def buildImageViews (viewOracle : Nat → Option Nat) (images : List Nat) :
    List Nat × Bool :=
  match images with
  | [] => ([], true)
  | i :: rest =>
    match viewOracle i with
    | none => ([], false)
    | some v =>
      let r := buildImageViews viewOracle rest
      (v :: r.1, r.2)

def VulkanSwapchain.CreateImageViews (s : SwapchainState)
    (viewOracle : Nat → Option Nat) : SwapchainState × Bool :=
  let r := buildImageViews viewOracle s.swapchainImages
  ({ s with swapchainImageViews := r.1 }, r.2)

def VulkanSwapchain.CleanupSwapchain (s : SwapchainState) : SwapchainState :=
  if s.hasDevice = false then
    s
  else
    { s with
        swapchainImageViews := []
        swapchain := none
        swapchainImages := [] }

/-- RecreateSwapchain: the minimize loop blocks until the framebuffer is
nonzero, so the framebuffer size parameters stand for the first nonzero size
observed; the body then cleans up only the chain and views and rebuilds. -/
def VulkanSwapchain.RecreateSwapchain (s : SwapchainState)
    (support : SwapChainSupportDetails) (framebufferWidth framebufferHeight : Nat)
    (newHandle : Option Nat) (driverImages : List Nat)
    (viewOracle : Nat → Option Nat) : SwapchainState × Bool :=
  if s.hasDevice = false ∨ s.hasWindow = false then
    (s, false)
  else
    let s := VulkanSwapchain.CleanupSwapchain s
    match VulkanSwapchain.CreateSwapchain s support framebufferWidth framebufferHeight
        newHandle driverImages with
    | (s, false) => (s, false)
    | (s, true) =>
      match VulkanSwapchain.CreateImageViews s viewOracle with
      | (s, false) => (s, false)
      | (s, true) => ({ s with outOfDate := false }, true)

/-! ## Device selection model (VulkanDevice.cpp lines 170-211, 311-402) -/

inductive VkPhysicalDeviceType where
  | other
  | integratedGpu
  | discreteGpu
  | virtualGpu
  | cpu
  deriving DecidableEq, Repr

structure QueueFamilyProps where
  graphicsBit : Bool
  transferBit : Bool
  presentSupport : Bool
  deriving DecidableEq, Repr

structure QueueFamilyIndices where
  graphicsFamily : Option Nat := none
  presentFamily : Option Nat := none
  transferFamily : Option Nat := none
  deriving DecidableEq, Repr

def QueueFamilyIndices.IsComplete (q : QueueFamilyIndices) : Bool :=
  q.graphicsFamily.isSome && q.presentFamily.isSome && q.transferFamily.isSome

/-- FindQueueFamilies: linear scan with early break once complete. -/
def findQueueFamiliesLoop (i : Nat) (families : List QueueFamilyProps)
    (indices : QueueFamilyIndices) : QueueFamilyIndices :=
  match families with
  | [] => indices
  | f :: rest =>
    let indices := if f.graphicsBit then { indices with graphicsFamily := some i } else indices
    let indices := if f.presentSupport then { indices with presentFamily := some i } else indices
    let indices := if f.transferBit then { indices with transferFamily := some i } else indices
    if indices.IsComplete then indices
    else findQueueFamiliesLoop (i + 1) rest indices

def VulkanDevice.FindQueueFamilies (families : List QueueFamilyProps) : QueueFamilyIndices :=
  findQueueFamiliesLoop 0 families {}

/-- One physical device as the selection code observes it.  Extension names
are opaque Nat identifiers; the surface format and present-mode lists feed
the swapchain-adequacy check. -/
structure PhysicalDeviceInfo where
  deviceType : VkPhysicalDeviceType
  maxImageDimension2D : Nat
  geometryShader : Bool
  samplerAnisotropy : Bool
  queueFamilies : List QueueFamilyProps
  availableExtensions : List Nat
  surfaceFormats : List VkSurfaceFormatKHR
  surfacePresentModes : List VkPresentModeKHR
  deriving DecidableEq, Repr

/-- CheckDeviceExtensionSupport: required set minus enumerated extensions
must be empty. -/
def VulkanDevice.CheckDeviceExtensionSupport (d : PhysicalDeviceInfo)
    (requiredExtensions : List Nat) : Bool :=
  requiredExtensions.all (fun e => d.availableExtensions.contains e)

def VulkanDevice.IsDeviceSuitable (d : PhysicalDeviceInfo)
    (requiredExtensions : List Nat) : Bool :=
  let indices := VulkanDevice.FindQueueFamilies d.queueFamilies
  let extensionsSupported := VulkanDevice.CheckDeviceExtensionSupport d requiredExtensions
  let swapChainAdequate :=
    extensionsSupported && (!d.surfaceFormats.isEmpty && !d.surfacePresentModes.isEmpty)
  indices.IsComplete && extensionsSupported && swapChainAdequate && d.samplerAnisotropy

def VulkanDevice.RateDeviceSuitability (d : PhysicalDeviceInfo) : Int :=
  let score : Int := 0
  let score := if d.deviceType = VkPhysicalDeviceType.discreteGpu then score + 1000 else score
  let score := score + d.maxImageDimension2D
  if d.geometryShader = false then 0 else score

/-- PickPhysicalDevice selection loop: bestScore starts at -1 and a suitable
device replaces the best when its score is strictly greater. -/
def pickLoop (requiredExtensions : List Nat) (devices : List PhysicalDeviceInfo)
    (bestScore : Int) (bestDevice : Option PhysicalDeviceInfo) :
    Option PhysicalDeviceInfo :=
  match devices with
  | [] => bestDevice
  | d :: rest =>
    if VulkanDevice.IsDeviceSuitable d requiredExtensions = true ∧
       bestScore < VulkanDevice.RateDeviceSuitability d then
      pickLoop requiredExtensions rest (VulkanDevice.RateDeviceSuitability d) (some d)
    else
      pickLoop requiredExtensions rest bestScore bestDevice

def VulkanDevice.PickPhysicalDevice (devices : List PhysicalDeviceInfo)
    (requiredExtensions : List Nat) : Option PhysicalDeviceInfo :=
  if devices.isEmpty then none
  else pickLoop requiredExtensions devices (-1) none

/-! ## Command submission model (VulkanCommandBuffer.cpp lines 221-272) -/

structure CmdBufState where
  initialized : Bool := false
  hasDevice : Bool := false
  graphicsQueue : Option Nat := none
  deriving DecidableEq, Repr

structure SubmitInfo where
  commandBuffers : List Nat := []
  waitSemaphores : List Nat := []
  waitStages : List Nat := []
  signalSemaphores : List Nat := []
  queue : Option Nat := none
  fence : Option Nat := none
  deriving DecidableEq, Repr

structure SubmitRecord where
  queue : Nat
  waitSemaphores : List Nat
  waitStages : List Nat
  commandBuffers : List Nat
  signalSemaphores : List Nat
  fence : Option Nat
  deriving DecidableEq, Repr

structure SubmitOutcome where
  success : Bool
  errorReported : Bool
  submitted : Option SubmitRecord
  deriving DecidableEq, Repr

def VulkanCommandBuffer.SubmitCommandBuffers (st : CmdBufState) (info : SubmitInfo)
    (queueSubmitOk : Bool) : SubmitOutcome :=
  if st.initialized = false ∨ st.hasDevice = false then
    { success := false, errorReported := true, submitted := none }
  else if info.commandBuffers.isEmpty then
    { success := false, errorReported := true, submitted := none }
  else
    let queue := match info.queue with
      | some q => some q
      | none => st.graphicsQueue
    match queue with
    | none => { success := false, errorReported := true, submitted := none }
    | some q =>
      if info.waitSemaphores.length ≠ info.waitStages.length then
        { success := false, errorReported := true, submitted := none }
      else
        let record : SubmitRecord :=
          { queue := q
            waitSemaphores := info.waitSemaphores
            waitStages := info.waitStages
            commandBuffers := info.commandBuffers
            signalSemaphores := info.signalSemaphores
            fence := info.fence }
        if queueSubmitOk = false then
          { success := false, errorReported := true, submitted := some record }
        else
          { success := true, errorReported := false, submitted := some record }

/-- Extent selection as claim C6 words it: the surface's current extent
unless its width is the max-uint sentinel, otherwise the framebuffer's
actual pixel size clamped componentwise to the min/max extent bounds
(no preferred-dimension override). -/
def claimChooseSwapExtent (capabilities : VkSurfaceCapabilitiesKHR)
    (framebufferWidth framebufferHeight : Nat) : VkExtent2D :=
  if capabilities.currentExtent.width ≠ UINT32_MAX then
    capabilities.currentExtent
  else
    { width := stdClamp framebufferWidth capabilities.minImageExtent.width
        capabilities.maxImageExtent.width
      height := stdClamp framebufferHeight capabilities.minImageExtent.height
        capabilities.maxImageExtent.height }

/-- Surface capabilities with the max-uint sentinel, used by the C6
counterexample. -/
def sentinelCaps : VkSurfaceCapabilitiesKHR :=
  { minImageCount := 2
    maxImageCount := 8
    currentExtent := { width := UINT32_MAX, height := 0 }
    minImageExtent := { width := 1, height := 1 }
    maxImageExtent := { width := 4096, height := 4096 } }

/-- InitInfo with preferred dimensions 800x600, used by the C6
counterexample. -/
def preferredInitInfo : SwapInitInfo :=
  { hasDevice := true
    hasWindow := true
    preferredWidth := 800
    preferredHeight := 600
    enableVSync := true }

/-- A device that satisfies every suitability check but lacks geometry
shaders, so its suitability score is 0. -/
def noGeometryDevice : PhysicalDeviceInfo :=
  { deviceType := VkPhysicalDeviceType.integratedGpu
    maxImageDimension2D := 4096
    geometryShader := false
    samplerAnisotropy := true
    queueFamilies := [{ graphicsBit := true, transferBit := true, presentSupport := true }]
    availableExtensions := [0]
    surfaceFormats :=
      [{ format := VkFormat.b8g8r8a8Srgb, colorSpace := VkColorSpaceKHR.srgbNonlinearKHR }]
    surfacePresentModes := [VkPresentModeKHR.fifoKHR] }

/-- A suitable discrete GPU with geometry shaders, used by witnesses. -/
def discreteDevice : PhysicalDeviceInfo :=
  { deviceType := VkPhysicalDeviceType.discreteGpu
    maxImageDimension2D := 4096
    geometryShader := true
    samplerAnisotropy := true
    queueFamilies := [{ graphicsBit := true, transferBit := true, presentSupport := true }]
    availableExtensions := [0]
    surfaceFormats :=
      [{ format := VkFormat.b8g8r8a8Srgb, colorSpace := VkColorSpaceKHR.srgbNonlinearKHR }]
    surfacePresentModes := [VkPresentModeKHR.fifoKHR] }

/-- A concrete ready swapchain state used by witnesses. -/
def sampleSwapState : SwapchainState :=
  { initInfo := { hasDevice := true, hasWindow := true, enableVSync := true }
    swapchain := some 1
    swapchainImages := [7, 8]
    swapchainImageViews := [9, 10]
    swapchainImageFormat := VkFormat.b8g8r8a8Srgb
    swapchainExtent := { width := 800, height := 600 }
    imageAvailableSemaphores := [11, 12]
    renderFinishedSemaphores := [13, 14]
    inFlightFences := [15, 16]
    currentFrame := 1
    outOfDate := true
    hasDevice := true
    hasWindow := true }

/-- Concrete surface support used by witnesses. -/
def sampleSupport : SwapChainSupportDetails :=
  { capabilities :=
      { minImageCount := 2
        maxImageCount := 8
        currentExtent := { width := 800, height := 600 }
        minImageExtent := { width := 1, height := 1 }
        maxImageExtent := { width := 4096, height := 4096 } }
    formats :=
      [{ format := VkFormat.b8g8r8a8Srgb, colorSpace := VkColorSpaceKHR.srgbNonlinearKHR }]
    presentModes := [VkPresentModeKHR.fifoKHR] }

/-- A concrete valid buffer handle used by witnesses. -/
def sampleBuffer : AllocatedBuffer := { buffer := 5, allocation := 6, size := 16 }

/-- A concrete valid image handle used by witnesses. -/
def sampleImage : AllocatedImage :=
  { image := 3, imageView := 4, allocation := 7, size := 64 }

/-! ## Theorems -/

/-- C1: on an initialized manager, each of the three recognized
(oldLayout, newLayout) pairs records exactly its specific
(srcAccess, dstAccess, srcStage, dstStage) barrier configuration, and every
other pair reports an error and records no barrier. -/
theorem transitionImageLayout_barrier_spec (s : RMState) (h : s.initialized = true)
    (format : VkFormat) (mipLevels layerCount : Nat) :
    ((ResourceManager.TransitionImageLayout s format VkImageLayout.undefined
        VkImageLayout.transferDstOptimal mipLevels layerCount).barrier.map
      BarrierRecord.core = some (0, VK_ACCESS_TRANSFER_WRITE_BIT,
        VK_PIPELINE_STAGE_TOP_OF_PIPE_BIT, VK_PIPELINE_STAGE_TRANSFER_BIT)) ∧
    ((ResourceManager.TransitionImageLayout s format VkImageLayout.transferDstOptimal
        VkImageLayout.shaderReadOnlyOptimal mipLevels layerCount).barrier.map
      BarrierRecord.core = some (VK_ACCESS_TRANSFER_WRITE_BIT, VK_ACCESS_SHADER_READ_BIT,
        VK_PIPELINE_STAGE_TRANSFER_BIT, VK_PIPELINE_STAGE_FRAGMENT_SHADER_BIT)) ∧
    ((ResourceManager.TransitionImageLayout s format VkImageLayout.undefined
        VkImageLayout.depthStencilAttachmentOptimal mipLevels layerCount).barrier.map
      BarrierRecord.core = some (0, VK_ACCESS_DEPTH_STENCIL_ATTACHMENT_READ_BIT |||
        VK_ACCESS_DEPTH_STENCIL_ATTACHMENT_WRITE_BIT,
        VK_PIPELINE_STAGE_TOP_OF_PIPE_BIT, VK_PIPELINE_STAGE_EARLY_FRAGMENT_TESTS_BIT)) ∧
    (∀ oldLayout newLayout, recognizedTransition oldLayout newLayout = true →
      (ResourceManager.TransitionImageLayout s format oldLayout newLayout mipLevels
        layerCount).errorReported = false) ∧
    (∀ oldLayout newLayout, recognizedTransition oldLayout newLayout = false →
      (ResourceManager.TransitionImageLayout s format oldLayout newLayout mipLevels
          layerCount).errorReported = true ∧
        (ResourceManager.TransitionImageLayout s format oldLayout newLayout mipLevels
          layerCount).barrier = none) := by
  refine ⟨?_, ?_, ?_, ?_, ?_⟩
  · simp [ResourceManager.TransitionImageLayout, h, BarrierRecord.core]
  · simp [ResourceManager.TransitionImageLayout, h, BarrierRecord.core]
  · simp [ResourceManager.TransitionImageLayout, h, BarrierRecord.core]
  · intro oldLayout newLayout hrec
    cases oldLayout <;> cases newLayout <;>
      simp_all [ResourceManager.TransitionImageLayout, recognizedTransition]
  · intro oldLayout newLayout hrec
    cases oldLayout <;> cases newLayout <;>
      simp_all [ResourceManager.TransitionImageLayout, recognizedTransition]

/-- C1 witness: at a concrete initialized state, the unrecognized pair
shader-read-only to transfer-dst is rejected with an error and no barrier. -/
theorem transitionImageLayout_barrier_spec_witness :
    ({ initialized := true, allocationCount := 0 } : RMState).initialized = true ∧
    (ResourceManager.TransitionImageLayout { initialized := true, allocationCount := 0 }
        VkFormat.r8g8b8a8Srgb VkImageLayout.shaderReadOnlyOptimal
        VkImageLayout.transferDstOptimal 1 1).errorReported = true := by
  have h := transitionImageLayout_barrier_spec { initialized := true, allocationCount := 0 }
    rfl VkFormat.r8g8b8a8Srgb 1 1
  exact ⟨rfl, (h.2.2.2.2 VkImageLayout.shaderReadOnlyOptimal
    VkImageLayout.transferDstOptimal (by decide)).1⟩

lemma destroyBuffer_count (s : RMState) (b : AllocatedBuffer)
    (hinit : s.initialized = true) (hb : b.IsValid = true) :
    (ResourceManager.DestroyBuffer s b).allocationCount = s.allocationCount - 1 := by
  unfold ResourceManager.DestroyBuffer
  rw [if_neg (by simp [hinit, hb])]
  split
  · simp
  · omega

lemma destroyImage_count (s : RMState) (i : AllocatedImage)
    (hinit : s.initialized = true) (hi : i.IsValid = true) :
    (ResourceManager.DestroyImage s i).allocationCount = s.allocationCount - 1 := by
  unfold ResourceManager.DestroyImage
  rw [if_neg (by simp [hinit, hi])]
  split
  · simp
  · omega

/-- C3: on an initialized manager, a successful buffer or image creation
returns a valid handle and increments the live-allocation counter by one;
destroying a valid buffer or image decrements it by one with a floor at
zero, so the counter never goes negative. -/
theorem resourceManager_allocation_count_spec (s : RMState) (size usage flags : Nat)
    (memoryUsage : VmaMemoryUsage) (b : AllocatedBuffer) (ai : AllocatedImage)
    (imgInfo : VkImageCreateInfo) (imageHandle allocationHandle allocSize viewHandle : Nat)
    (hinit : s.initialized = true) (hb : b.IsValid = true) (hai : ai.IsValid = true)
    (hcap : s.allocationCount + 1 < 2 ^ 32)
    (hih : imageHandle ≠ 0) (hah : allocationHandle ≠ 0) :
    (ResourceManager.CreateBuffer s size usage memoryUsage flags (some b)).2 = b ∧
    (ResourceManager.CreateBuffer s size usage memoryUsage flags (some b)).2.IsValid
      = true ∧
    (ResourceManager.CreateBuffer s size usage memoryUsage flags
      (some b)).1.allocationCount = s.allocationCount + 1 ∧
    ((ResourceManager.CreateImage s imgInfo memoryUsage flags
      (some (imageHandle, allocationHandle, allocSize))
      (fun _ => some viewHandle)).2).IsValid = true ∧
    (ResourceManager.CreateImage s imgInfo memoryUsage flags
      (some (imageHandle, allocationHandle, allocSize))
      (fun _ => some viewHandle)).1.allocationCount = s.allocationCount + 1 ∧
    (ResourceManager.DestroyBuffer s b).allocationCount = s.allocationCount - 1 ∧
    (0 < s.allocationCount →
      (ResourceManager.DestroyBuffer s b).allocationCount + 1 = s.allocationCount) ∧
    (s.allocationCount = 0 → (ResourceManager.DestroyBuffer s b).allocationCount = 0) ∧
    (ResourceManager.DestroyImage s ai).allocationCount = s.allocationCount - 1 ∧
    (s.allocationCount = 0 → (ResourceManager.DestroyImage s ai).allocationCount = 0) := by
  have hcap' : s.allocationCount + 1 < 4294967296 := by simpa using hcap
  refine ⟨?_, ?_, ?_, ?_, ?_, ?_, ?_, ?_, ?_, ?_⟩
  · simp [ResourceManager.CreateBuffer, hinit]
  · simp [ResourceManager.CreateBuffer, hinit, hb]
  · simp [ResourceManager.CreateBuffer, hinit]
    exact hcap'
  · simp [ResourceManager.CreateImage, hinit, AllocatedImage.IsValid, hih, hah]
  · simp [ResourceManager.CreateImage, hinit]
    exact hcap'
  · exact destroyBuffer_count s b hinit hb
  · intro hpos
    rw [destroyBuffer_count s b hinit hb]
    omega
  · intro hz
    rw [destroyBuffer_count s b hinit hb, hz]
  · exact destroyImage_count s ai hinit hai
  · intro hz
    rw [destroyImage_count s ai hinit hai, hz]

/-- C3 witness: concrete create and destroy on an initialized manager with
one live allocation. -/
theorem resourceManager_allocation_count_spec_witness :
    ({ initialized := true, allocationCount := 1 } : RMState).initialized = true ∧
    sampleBuffer.IsValid = true ∧
    (ResourceManager.CreateBuffer { initialized := true, allocationCount := 1 } 16 0
      VmaMemoryUsage.gpuOnly 0 (some sampleBuffer)).1.allocationCount = 2 := by
  have h := resourceManager_allocation_count_spec
    { initialized := true, allocationCount := 1 } 16 0 0 VmaMemoryUsage.gpuOnly
    sampleBuffer sampleImage
    {} 3 7 64 4 rfl (by decide) (by decide) (by decide) (by decide) (by decide)
  exact ⟨rfl, by decide, h.2.2.1⟩

/-- C7: the code performs no width/height check, so with a succeeding
allocator and view oracle, CreateTexture2D with width 0 returns a handle
whose validity predicate is true and increments the counter, contradicting
the claim that degenerate creation must fail. -/
theorem createTexture2D_zero_width_valid_when_allocator_succeeds :
    ((ResourceManager.CreateTexture2D { initialized := true, allocationCount := 0 } 0 1
        VkFormat.r8g8b8a8Srgb 1 (some (1, 1, 4)) (fun _ => some 1)).2).IsValid = true ∧
    (ResourceManager.CreateTexture2D { initialized := true, allocationCount := 0 } 0 1
        VkFormat.r8g8b8a8Srgb 1 (some (1, 1, 4)) (fun _ => some 1)).1.allocationCount
      = 1 := by
  constructor
  · rfl
  · rfl

/-- C10: every public ResourceManager operation called while the manager is
not initialized leaves the state unchanged and returns a failure-neutral
value: creations return the all-null handle, MapBuffer returns null, the
destroy, copy, transition and mipmap operations record nothing, and
GetTotalAllocatedBytes returns 0. -/
theorem resourceManager_uninitialized_noops (s : RMState) (h : s.initialized = false)
    (size usage flags copySize srcOffset dstOffset : Nat)
    (memoryUsage : VmaMemoryUsage) (vb : Option AllocatedBuffer) (hostVisible : Bool)
    (imgInfo : VkImageCreateInfo) (vi : Option (Nat × Nat × Nat))
    (viewOracle : Nat → Option Nat) (width height mipLevels samples layerCount : Nat)
    (format : VkFormat) (buf srcBuf dstBuf : AllocatedBuffer) (img : AllocatedImage)
    (mapOracle : Option Nat) (oldLayout newLayout : VkImageLayout)
    (linearFilter : Bool) (vmaStatsBytes : Nat) :
    ResourceManager.CreateBuffer s size usage memoryUsage flags vb = (s, {}) ∧
    ResourceManager.CreateVertexBuffer s size hostVisible vb = (s, {}) ∧
    ResourceManager.CreateIndexBuffer s size hostVisible vb = (s, {}) ∧
    ResourceManager.CreateUniformBuffer s size vb = (s, {}) ∧
    ResourceManager.CreateStagingBuffer s size vb = (s, {}) ∧
    ResourceManager.CreateImage s imgInfo memoryUsage flags vi viewOracle = (s, {}) ∧
    ResourceManager.CreateImage2D s width height format usage mipLevels samples vi
      viewOracle = (s, {}) ∧
    ResourceManager.CreateTexture2D s width height format mipLevels vi viewOracle
      = (s, {}) ∧
    (AllocatedBuffer.IsValid {} = false ∧ AllocatedImage.IsValid {} = false) ∧
    ResourceManager.DestroyBuffer s buf = s ∧
    ResourceManager.DestroyImage s img = s ∧
    ResourceManager.MapBuffer s buf mapOracle = none ∧
    ResourceManager.CopyBuffer s srcBuf dstBuf copySize srcOffset dstOffset = none ∧
    ResourceManager.CopyBufferToImage s buf img width height layerCount = none ∧
    ResourceManager.TransitionImageLayout s format oldLayout newLayout mipLevels
      layerCount = { errorReported := false, barrier := none, commandEnded := false } ∧
    ResourceManager.GenerateMipmaps s format width height mipLevels linearFilter
      = { errorReported := false, commands := none } ∧
    ResourceManager.GetTotalAllocatedBytes s vmaStatsBytes = 0 := by
  refine ⟨?_, ?_, ?_, ?_, ?_, ?_, ?_, ?_, ⟨rfl, rfl⟩, ?_, ?_, ?_, ?_, ?_, ?_, ?_, ?_⟩
  · simp [ResourceManager.CreateBuffer, h]
  · cases hostVisible <;>
      simp [ResourceManager.CreateVertexBuffer, ResourceManager.CreateBuffer, h]
  · cases hostVisible <;>
      simp [ResourceManager.CreateIndexBuffer, ResourceManager.CreateBuffer, h]
  · simp [ResourceManager.CreateUniformBuffer, ResourceManager.CreateBuffer, h]
  · simp [ResourceManager.CreateStagingBuffer, ResourceManager.CreateBuffer, h]
  · simp [ResourceManager.CreateImage, h]
  · simp [ResourceManager.CreateImage2D, ResourceManager.CreateImage, h]
  · simp [ResourceManager.CreateTexture2D, ResourceManager.CreateImage2D,
      ResourceManager.CreateImage, h]
  · simp [ResourceManager.DestroyBuffer, h]
  · simp [ResourceManager.DestroyImage, h]
  · simp [ResourceManager.MapBuffer, h]
  · simp [ResourceManager.CopyBuffer, h]
  · simp [ResourceManager.CopyBufferToImage, h]
  · simp [ResourceManager.TransitionImageLayout, h]
  · simp [ResourceManager.GenerateMipmaps, h]
  · simp [ResourceManager.GetTotalAllocatedBytes, h]

/-- C10 witness: on a concrete uninitialized state, CreateBuffer returns the
all-null handle with the state unchanged and GetTotalAllocatedBytes is 0. -/
theorem resourceManager_uninitialized_noops_witness :
    ({ initialized := false, allocationCount := 0 } : RMState).initialized = false ∧
    ResourceManager.CreateBuffer { initialized := false, allocationCount := 0 } 64 0
      VmaMemoryUsage.gpuOnly 0 (some sampleBuffer)
      = ({ initialized := false, allocationCount := 0 }, {}) ∧
    ResourceManager.GetTotalAllocatedBytes { initialized := false, allocationCount := 0 }
      42 = 0 := by
  have h := resourceManager_uninitialized_noops
    { initialized := false, allocationCount := 0 } rfl 64 0 0 0 0 0
    VmaMemoryUsage.gpuOnly (some sampleBuffer)
    false {} none (fun _ => none) 0 0 1 1 1 VkFormat.r8g8b8a8Srgb
    {} {} {} {} none VkImageLayout.undefined VkImageLayout.transferDstOptimal false 42
  exact ⟨rfl, h.1, h.2.2.2.2.2.2.2.2.2.2.2.2.2.2.2.2⟩

/-- C2: on an initialized swapchain, an out-of-date acquire sets the
staleness flag, returns failure and does not reset the frame slot's fence;
a successful acquire resets the fence; any other non-success,
non-suboptimal result returns failure with an error reported and without
resetting the fence. -/
theorem acquireNextImage_result_spec (s : SwapchainState) (k acquiredIndex : Nat)
    (hd : s.hasDevice = true) (hs : s.swapchain = some k) :
    (VulkanSwapchain.AcquireNextImage s VkAcquireResult.errorOutOfDateKHR
      acquiredIndex).state.outOfDate = true ∧
    (VulkanSwapchain.AcquireNextImage s VkAcquireResult.errorOutOfDateKHR
      acquiredIndex).returned = false ∧
    (VulkanSwapchain.AcquireNextImage s VkAcquireResult.errorOutOfDateKHR
      acquiredIndex).fenceReset = false ∧
    (VulkanSwapchain.AcquireNextImage s VkAcquireResult.errorOutOfDateKHR
      acquiredIndex).state = { s with outOfDate := true } ∧
    (VulkanSwapchain.AcquireNextImage s VkAcquireResult.success
      acquiredIndex).returned = true ∧
    (VulkanSwapchain.AcquireNextImage s VkAcquireResult.success
      acquiredIndex).fenceReset = true ∧
    (VulkanSwapchain.AcquireNextImage s VkAcquireResult.errorOther
      acquiredIndex).returned = false ∧
    (VulkanSwapchain.AcquireNextImage s VkAcquireResult.errorOther
      acquiredIndex).fenceReset = false ∧
    (VulkanSwapchain.AcquireNextImage s VkAcquireResult.errorOther
      acquiredIndex).errorReported = true := by
  refine ⟨?_, ?_, ?_, ?_, ?_, ?_, ?_, ?_, ?_⟩ <;>
    simp [VulkanSwapchain.AcquireNextImage, hd, hs]

/-- C2 witness: concrete out-of-date acquire on a ready swapchain state. -/
theorem acquireNextImage_result_spec_witness :
    sampleSwapState.hasDevice = true ∧ sampleSwapState.swapchain = some 1 ∧
    (VulkanSwapchain.AcquireNextImage sampleSwapState
      VkAcquireResult.errorOutOfDateKHR 0).state.outOfDate = true ∧
    (VulkanSwapchain.AcquireNextImage sampleSwapState
      VkAcquireResult.errorOutOfDateKHR 0).fenceReset = false := by
  have h := acquireNextImage_result_spec sampleSwapState 1 0 rfl rfl
  exact ⟨rfl, rfl, h.1, h.2.2.1⟩

lemma findPresentMode_of_mem (modes : List VkPresentModeKHR) (target : VkPresentModeKHR)
    (h : target ∈ modes) : findPresentMode modes target = some target := by
  induction modes with
  | nil => cases h
  | cons m rest ih =>
    rw [findPresentMode]
    rcases List.mem_cons.mp h with rfl | hmem
    · simp
    · split
      · simp_all
      · exact ih hmem

lemma findPresentMode_of_not_mem (modes : List VkPresentModeKHR)
    (target : VkPresentModeKHR) (h : target ∉ modes) :
    findPresentMode modes target = none := by
  induction modes with
  | nil => rfl
  | cons m rest ih =>
    rw [findPresentMode]
    split
    · simp_all
    · exact ih fun hmem => h (List.mem_cons_of_mem m hmem)

/-- C5: present-mode selection returns mailbox when vsync is disabled and
mailbox is available, otherwise immediate when available, otherwise FIFO;
with vsync enabled it always returns FIFO. -/
theorem chooseSwapPresentMode_spec (enableVSync : Bool)
    (modes : List VkPresentModeKHR) :
    VulkanSwapchain.ChooseSwapPresentMode enableVSync modes =
      if enableVSync then VkPresentModeKHR.fifoKHR
      else if VkPresentModeKHR.mailboxKHR ∈ modes then VkPresentModeKHR.mailboxKHR
      else if VkPresentModeKHR.immediateKHR ∈ modes then VkPresentModeKHR.immediateKHR
      else VkPresentModeKHR.fifoKHR := by
  cases enableVSync with
  | true => simp [VulkanSwapchain.ChooseSwapPresentMode]
  | false =>
    by_cases hm : VkPresentModeKHR.mailboxKHR ∈ modes
    · simp [VulkanSwapchain.ChooseSwapPresentMode,
        findPresentMode_of_mem modes VkPresentModeKHR.mailboxKHR hm, hm]
    · by_cases hi : VkPresentModeKHR.immediateKHR ∈ modes
      · simp [VulkanSwapchain.ChooseSwapPresentMode,
          findPresentMode_of_not_mem modes VkPresentModeKHR.mailboxKHR hm,
          findPresentMode_of_mem modes VkPresentModeKHR.immediateKHR hi, hm, hi]
      · simp [VulkanSwapchain.ChooseSwapPresentMode,
          findPresentMode_of_not_mem modes VkPresentModeKHR.mailboxKHR hm,
          findPresentMode_of_not_mem modes VkPresentModeKHR.immediateKHR hi, hm, hi]

/-- C6 counterexample: with the max-uint sentinel, a 100x100 framebuffer and
preferred dimensions 800x600, the code returns 800x600 while the claim's
framebuffer-derived clamped extent is 100x100. -/
theorem chooseSwapExtent_claim_counterexample :
    VulkanSwapchain.ChooseSwapExtent preferredInitInfo sentinelCaps 100 100
      = { width := 800, height := 600 } ∧
    claimChooseSwapExtent sentinelCaps 100 100 = { width := 100, height := 100 } ∧
    VulkanSwapchain.ChooseSwapExtent preferredInitInfo sentinelCaps 100 100
      ≠ claimChooseSwapExtent sentinelCaps 100 100 := by
  refine ⟨by decide, by decide, by decide⟩

lemma stdClamp_eq_max_min (v lo hi : Nat) (h : lo ≤ hi) :
    stdClamp v lo hi = max lo (min v hi) := by
  unfold stdClamp
  split
  · omega
  · split <;> omega

/-- C6 amended: extent selection returns the surface's current extent unless
its width is the max-uint sentinel; otherwise the source dimensions are the
framebuffer's pixel size, except that positive preferred dimensions in the
initialization info override them, and the result is clamped componentwise
to the surface's min/max extent bounds. -/
theorem chooseSwapExtent_amended_spec (initInfo : SwapInitInfo)
    (capabilities : VkSurfaceCapabilitiesKHR) (framebufferWidth framebufferHeight : Nat)
    (hw : capabilities.minImageExtent.width ≤ capabilities.maxImageExtent.width)
    (hh : capabilities.minImageExtent.height ≤ capabilities.maxImageExtent.height) :
    VulkanSwapchain.ChooseSwapExtent initInfo capabilities framebufferWidth
        framebufferHeight =
      if capabilities.currentExtent.width ≠ UINT32_MAX then
        capabilities.currentExtent
      else
        { width := max capabilities.minImageExtent.width
            (min (if 0 < initInfo.preferredWidth ∧ 0 < initInfo.preferredHeight then
                initInfo.preferredWidth else framebufferWidth)
              capabilities.maxImageExtent.width)
          height := max capabilities.minImageExtent.height
            (min (if 0 < initInfo.preferredWidth ∧ 0 < initInfo.preferredHeight then
                initInfo.preferredHeight else framebufferHeight)
              capabilities.maxImageExtent.height) } := by
  unfold VulkanSwapchain.ChooseSwapExtent
  split
  · rfl
  · simp only [stdClamp_eq_max_min _ _ _ hw, stdClamp_eq_max_min _ _ _ hh]

/-- C6 amended witness: at the counterexample input the amended description
matches the code and yields the preferred 800x600 extent. -/
theorem chooseSwapExtent_amended_spec_witness :
    sentinelCaps.minImageExtent.width ≤ sentinelCaps.maxImageExtent.width ∧
    VulkanSwapchain.ChooseSwapExtent preferredInitInfo sentinelCaps 100 100
      = { width := max 1 (min 800 4096), height := max 1 (min 600 4096) } := by
  have h := chooseSwapExtent_amended_spec preferredInitInfo sentinelCaps 100 100
    (by decide) (by decide)
  refine ⟨by decide, ?_⟩
  rw [h]
  decide

/-- C9: a submit whose wait-semaphore count differs from its wait-stage
count reports an error, performs no submission and returns failure; a
submission is ever performed only when the two counts match. -/
theorem submitCommandBuffers_wait_count_validation (st : CmdBufState)
    (info : SubmitInfo) (queueSubmitOk : Bool)
    (hmm : info.waitSemaphores.length ≠ info.waitStages.length) :
    VulkanCommandBuffer.SubmitCommandBuffers st info queueSubmitOk
      = { success := false, errorReported := true, submitted := none } ∧
    (∀ (st2 : CmdBufState) (info2 : SubmitInfo) (ok2 : Bool) (r : SubmitRecord),
      (VulkanCommandBuffer.SubmitCommandBuffers st2 info2 ok2).submitted = some r →
      info2.waitSemaphores.length = info2.waitStages.length) := by
  constructor
  · unfold VulkanCommandBuffer.SubmitCommandBuffers
    repeat' split
    all_goals try rfl
    all_goals try simp_all
    all_goals cases hq : st.graphicsQueue <;> rfl
  · intro st2 info2 ok2 r hr
    unfold VulkanCommandBuffer.SubmitCommandBuffers at hr
    repeat' split at hr
    all_goals try simp_all
    all_goals cases hq : st2.graphicsQueue <;> rw [hq] at hr <;> simp at hr

/-- C9 witness: a concrete mismatched submit is rejected with no
submission. -/
theorem submitCommandBuffers_wait_count_validation_witness :
    ({ commandBuffers := [5], waitSemaphores := [1] } :
      SubmitInfo).waitSemaphores.length ≠
      ({ commandBuffers := [5], waitSemaphores := [1] } : SubmitInfo).waitStages.length ∧
    VulkanCommandBuffer.SubmitCommandBuffers
      { initialized := true, hasDevice := true, graphicsQueue := some 1 }
      { commandBuffers := [5], waitSemaphores := [1] } true
      = { success := false, errorReported := true, submitted := none } := by
  have h := submitCommandBuffers_wait_count_validation
    { initialized := true, hasDevice := true, graphicsQueue := some 1 }
    { commandBuffers := [5], waitSemaphores := [1] } true (by decide)
  exact ⟨by decide, h.1⟩

lemma rateDeviceSuitability_nonneg (d : PhysicalDeviceInfo) :
    0 ≤ VulkanDevice.RateDeviceSuitability d := by
  unfold VulkanDevice.RateDeviceSuitability
  simp only []
  split
  · omega
  · split <;> omega

lemma pickLoop_max (req : List Nat) :
    ∀ (l : List PhysicalDeviceInfo) (bs : Int) (best : Option PhysicalDeviceInfo),
      (∀ b, best = some b → VulkanDevice.IsDeviceSuitable b req = true ∧
        VulkanDevice.RateDeviceSuitability b = bs) →
      ∀ d, pickLoop req l bs best = some d →
        VulkanDevice.IsDeviceSuitable d req = true ∧
        bs ≤ VulkanDevice.RateDeviceSuitability d ∧
        ∀ d2 ∈ l, VulkanDevice.IsDeviceSuitable d2 req = true →
          VulkanDevice.RateDeviceSuitability d2 ≤ VulkanDevice.RateDeviceSuitability d
  | [], bs, best, hinv, d, hd => by
    rw [pickLoop] at hd
    rcases hinv d hd with ⟨h1, h2⟩
    exact ⟨h1, le_of_eq h2.symm, by simp⟩
  | d0 :: rest, bs, best, hinv, d, hd => by
    rw [pickLoop] at hd
    split at hd
    case isTrue hc =>
      obtain ⟨hsuit0, hlt⟩ := hc
      obtain ⟨hs, hge, hmax⟩ := pickLoop_max req rest
        (VulkanDevice.RateDeviceSuitability d0) (some d0)
        (fun b hb => by cases Option.some.inj hb; exact ⟨hsuit0, rfl⟩) d hd
      refine ⟨hs, le_of_lt (lt_of_lt_of_le hlt hge), ?_⟩
      intro d2 hd2 hs2
      rcases List.mem_cons.mp hd2 with rfl | hmem
      · exact hge
      · exact hmax d2 hmem hs2
    case isFalse hc =>
      obtain ⟨hs, hge, hmax⟩ := pickLoop_max req rest bs best hinv d hd
      refine ⟨hs, hge, ?_⟩
      intro d2 hd2 hs2
      rcases List.mem_cons.mp hd2 with rfl | hmem
      · have hnlt : ¬ bs < VulkanDevice.RateDeviceSuitability d2 :=
          fun hlt => hc ⟨hs2, hlt⟩
        exact le_trans (not_lt.mp hnlt) hge
      · exact hmax d2 hmem hs2

lemma pickLoop_isSome_of_best (req : List Nat) :
    ∀ (l : List PhysicalDeviceInfo) (bs : Int) (best : Option PhysicalDeviceInfo),
      best.isSome → (pickLoop req l bs best).isSome
  | [], _, _, h => by rw [pickLoop]; exact h
  | d0 :: rest, bs, best, h => by
    rw [pickLoop]
    split
    · exact pickLoop_isSome_of_best req rest _ (some d0) rfl
    · exact pickLoop_isSome_of_best req rest bs best h

lemma pickLoop_finds (req : List Nat) :
    ∀ (l : List PhysicalDeviceInfo) (bs : Int) (best : Option PhysicalDeviceInfo),
      bs < 0 → (∃ d ∈ l, VulkanDevice.IsDeviceSuitable d req = true) →
      (pickLoop req l bs best).isSome
  | [], _, _, _, hex => by simp at hex
  | d0 :: rest, bs, best, hbs, hex => by
    rw [pickLoop]
    split
    · exact pickLoop_isSome_of_best req rest _ (some d0) rfl
    case isFalse hc =>
      rcases hex with ⟨d, hd, hsuit⟩
      rcases List.mem_cons.mp hd with rfl | hmem
      · exact absurd ⟨hsuit, lt_of_lt_of_le hbs (rateDeviceSuitability_nonneg d)⟩ hc
      · exact pickLoop_finds req rest bs best hbs ⟨d, hmem, hsuit⟩

/-- C4 amended: the scoring function adds 1000 for a discrete GPU plus the
maximum 2D image dimension and scores 0 without geometry-shader support;
selection returns a suitable device of maximal score among the suitable
devices and finds one whenever a suitable device exists, so a score of 0
does not disqualify an otherwise suitable device. -/
theorem pickPhysicalDevice_spec (devices : List PhysicalDeviceInfo)
    (requiredExtensions : List Nat) :
    (∀ d : PhysicalDeviceInfo, VulkanDevice.RateDeviceSuitability d =
      if d.geometryShader = false then (0 : Int)
      else (if d.deviceType = VkPhysicalDeviceType.discreteGpu then (1000 : Int) else 0) +
        (d.maxImageDimension2D : Int)) ∧
    (∀ d, VulkanDevice.PickPhysicalDevice devices requiredExtensions = some d →
      VulkanDevice.IsDeviceSuitable d requiredExtensions = true ∧
      ∀ d2 ∈ devices, VulkanDevice.IsDeviceSuitable d2 requiredExtensions = true →
        VulkanDevice.RateDeviceSuitability d2 ≤ VulkanDevice.RateDeviceSuitability d) ∧
    ((∃ d ∈ devices, VulkanDevice.IsDeviceSuitable d requiredExtensions = true) →
      ∃ d, VulkanDevice.PickPhysicalDevice devices requiredExtensions = some d) := by
  refine ⟨?_, ?_, ?_⟩
  · intro d
    unfold VulkanDevice.RateDeviceSuitability
    simp only []
    by_cases hg : d.geometryShader = false
    · simp [hg]
    · by_cases hd : d.deviceType = VkPhysicalDeviceType.discreteGpu <;> simp [hg, hd]
  · intro d hd
    unfold VulkanDevice.PickPhysicalDevice at hd
    split at hd
    · simp at hd
    · obtain ⟨h1, _, h3⟩ := pickLoop_max requiredExtensions devices (-1) none
        (fun b hb => by cases hb) d hd
      exact ⟨h1, h3⟩
  · intro hex
    unfold VulkanDevice.PickPhysicalDevice
    split
    case isTrue he =>
      rcases hex with ⟨d, hd, _⟩
      rw [List.isEmpty_iff.mp he] at hd
      cases hd
    case isFalse he =>
      exact Option.isSome_iff_exists.mp
        (pickLoop_finds requiredExtensions devices (-1) none (by omega) hex)

/-- C4 amended witness: a concrete suitable discrete device is picked and
its score follows the stated formula. -/
theorem pickPhysicalDevice_spec_witness :
    VulkanDevice.IsDeviceSuitable discreteDevice [0] = true ∧
    VulkanDevice.RateDeviceSuitability discreteDevice = 5096 := by
  have h := pickPhysicalDevice_spec [discreteDevice] [0]
  refine ⟨(h.2.1 discreteDevice (by decide)).1, ?_⟩
  rw [h.1 discreteDevice]
  decide

/-- C4 counterexample: a fully suitable device without geometry shaders has
score 0 and is nevertheless picked, so score 0 does not disqualify. -/
theorem pickPhysicalDevice_score_zero_counterexample :
    VulkanDevice.RateDeviceSuitability noGeometryDevice = 0 ∧
    VulkanDevice.IsDeviceSuitable noGeometryDevice [0] = true ∧
    VulkanDevice.PickPhysicalDevice [noGeometryDevice] [0]
      = some noGeometryDevice := by
  refine ⟨by decide, by decide, by decide⟩

lemma buildImageViews_ok (viewOracle : Nat → Option Nat) (images : List Nat)
    (h : ∀ i ∈ images, (viewOracle i).isSome) :
    (buildImageViews viewOracle images).2 = true := by
  induction images with
  | nil => rfl
  | cons i rest ih =>
    rw [buildImageViews]
    rcases hv : viewOracle i with _ | v
    · exact absurd (h i (List.mem_cons_self i rest)) (by simp [hv])
    · simpa using ih fun j hj => h j (List.mem_cons_of_mem i hj)

lemma createImageViews_ok (s : SwapchainState) (viewOracle : Nat → Option Nat)
    (h : ∀ i ∈ s.swapchainImages, (viewOracle i).isSome) :
    VulkanSwapchain.CreateImageViews s viewOracle =
      ({ s with swapchainImageViews := (buildImageViews viewOracle s.swapchainImages).1 },
        true) := by
  unfold VulkanSwapchain.CreateImageViews
  rw [Prod.ext_iff]
  exact ⟨rfl, buildImageViews_ok viewOracle s.swapchainImages h⟩

lemma createSwapchain_ok (s : SwapchainState) (support : SwapChainSupportDetails)
    (framebufferWidth framebufferHeight handle : Nat) (driverImages : List Nat)
    (f : VkSurfaceFormatKHR)
    (hf : VulkanSwapchain.ChooseSwapSurfaceFormat support.formats = some f) :
    VulkanSwapchain.CreateSwapchain s support framebufferWidth framebufferHeight
        (some handle) driverImages =
      ({ s with
          swapchain := some handle
          swapchainImages := driverImages
          swapchainImageFormat := f.format
          swapchainExtent := VulkanSwapchain.ChooseSwapExtent s.initInfo
            support.capabilities framebufferWidth framebufferHeight }, true) := by
  unfold VulkanSwapchain.CreateSwapchain
  rw [hf]

/-- C8: a successful swapchain recreation succeeds with the per-frame
semaphores, fences and current frame index unchanged, the staleness flag
cleared, and the chain handle, image list and image views rebuilt. -/
theorem recreateSwapchain_preserves_sync (s : SwapchainState)
    (support : SwapChainSupportDetails) (framebufferWidth framebufferHeight handle : Nat)
    (driverImages : List Nat) (viewOracle : Nat → Option Nat) (f : VkSurfaceFormatKHR)
    (hd : s.hasDevice = true) (hw : s.hasWindow = true)
    (hf : VulkanSwapchain.ChooseSwapSurfaceFormat support.formats = some f)
    (hv : ∀ i ∈ driverImages, (viewOracle i).isSome) :
    (VulkanSwapchain.RecreateSwapchain s support framebufferWidth framebufferHeight
      (some handle) driverImages viewOracle).2 = true ∧
    (VulkanSwapchain.RecreateSwapchain s support framebufferWidth framebufferHeight
      (some handle) driverImages viewOracle).1.imageAvailableSemaphores
        = s.imageAvailableSemaphores ∧
    (VulkanSwapchain.RecreateSwapchain s support framebufferWidth framebufferHeight
      (some handle) driverImages viewOracle).1.renderFinishedSemaphores
        = s.renderFinishedSemaphores ∧
    (VulkanSwapchain.RecreateSwapchain s support framebufferWidth framebufferHeight
      (some handle) driverImages viewOracle).1.inFlightFences = s.inFlightFences ∧
    (VulkanSwapchain.RecreateSwapchain s support framebufferWidth framebufferHeight
      (some handle) driverImages viewOracle).1.currentFrame = s.currentFrame ∧
    (VulkanSwapchain.RecreateSwapchain s support framebufferWidth framebufferHeight
      (some handle) driverImages viewOracle).1.outOfDate = false ∧
    (VulkanSwapchain.RecreateSwapchain s support framebufferWidth framebufferHeight
      (some handle) driverImages viewOracle).1.swapchain = some handle ∧
    (VulkanSwapchain.RecreateSwapchain s support framebufferWidth framebufferHeight
      (some handle) driverImages viewOracle).1.swapchainImages = driverImages ∧
    (VulkanSwapchain.RecreateSwapchain s support framebufferWidth framebufferHeight
      (some handle) driverImages viewOracle).1.swapchainImageViews
        = (buildImageViews viewOracle driverImages).1 := by
  have hguard : ¬ (s.hasDevice = false ∨ s.hasWindow = false) := by simp [hd, hw]
  have hclean : VulkanSwapchain.CleanupSwapchain s =
      { s with swapchainImageViews := [], swapchain := none, swapchainImages := [] } := by
    unfold VulkanSwapchain.CleanupSwapchain
    rw [if_neg (by simp [hd])]
  have hmain : VulkanSwapchain.RecreateSwapchain s support framebufferWidth
      framebufferHeight (some handle) driverImages viewOracle =
      ({ s with
          swapchainImageViews := (buildImageViews viewOracle driverImages).1
          swapchain := some handle
          swapchainImages := driverImages
          swapchainImageFormat := f.format
          swapchainExtent := VulkanSwapchain.ChooseSwapExtent s.initInfo
            support.capabilities framebufferWidth framebufferHeight
          outOfDate := false }, true) := by
    unfold VulkanSwapchain.RecreateSwapchain
    rw [if_neg hguard, hclean]
    simp only []
    rw [createSwapchain_ok _ support framebufferWidth framebufferHeight handle
      driverImages f hf]
    simp only []
    rw [createImageViews_ok _ viewOracle (by simpa using hv)]
  rw [hmain]
  exact ⟨rfl, rfl, rfl, rfl, rfl, rfl, rfl, rfl, rfl⟩

/-- C8 witness: a concrete stale swapchain state is recreated with its sync
objects and frame index intact and staleness cleared. -/
theorem recreateSwapchain_preserves_sync_witness :
    sampleSwapState.hasDevice = true ∧
    (VulkanSwapchain.RecreateSwapchain sampleSwapState sampleSupport 800 600 (some 2)
      [17, 18] (fun i => some (i + 1))).2 = true ∧
    (VulkanSwapchain.RecreateSwapchain sampleSwapState sampleSupport 800 600 (some 2)
      [17, 18] (fun i => some (i + 1))).1.inFlightFences = [15, 16] ∧
    (VulkanSwapchain.RecreateSwapchain sampleSwapState sampleSupport 800 600 (some 2)
      [17, 18] (fun i => some (i + 1))).1.currentFrame = 1 ∧
    (VulkanSwapchain.RecreateSwapchain sampleSwapState sampleSupport 800 600 (some 2)
      [17, 18] (fun i => some (i + 1))).1.outOfDate = false := by
  have h := recreateSwapchain_preserves_sync sampleSwapState sampleSupport 800 600 2
    [17, 18] (fun i => some (i + 1))
    { format := VkFormat.b8g8r8a8Srgb, colorSpace := VkColorSpaceKHR.srgbNonlinearKHR }
    rfl rfl (by decide) (by decide)
  exact ⟨rfl, h.1, h.2.2.2.1, h.2.2.2.2.1, h.2.2.2.2.2.1⟩
